import Mathlib

/-!
# Verification of the Vishwakarma deployment-pipeline core

Shallow embedding of the orchestration core of the repository:
`CodeAnalyzer.analyze_project` (backend/services/code_analyzer.py),
`BuildService.build_project` (backend/services/build_service.py),
`DeploymentManager.deploy_project` (backend/services/deployment_manager.py),
the AWS/Azure deployers (backend/deployers/), and the supported-framework
configuration table (config.py).

Filesystem facts (which manifest files exist, what a package manifest
declares) are modelled by an explicit `RepoTree` record; subprocess
execution and cloud calls are modelled by environment records that map a
command to its observed outcome.  Python `dict` literals become
association lists, Python `None` becomes `Option.none`, and a Python
`try/except` boundary becomes an explicit `Except` value that the
handler consumes.
-/

set_option autoImplicit false

namespace Vishwakarma

/-!
### Python string primitives

The embedding models Python's `str` operations at the character-list
level with structural recursion, so that every definition evaluates by
kernel reduction on concrete inputs. -/

/-- Does `sep` occur at the head of `cs`? -/
def leadsWith : List Char → List Char → Bool
  | [], _ => true
  | _ :: _, [] => false
  | s :: ss, c :: cs => s == c && leadsWith ss cs

/-- Occurrence of `pat` anywhere in the character list. -/
def strContainsChars (pat : List Char) : List Char → Bool
  | [] => pat.isEmpty
  | c :: cs => leadsWith pat (c :: cs) || strContainsChars pat cs

/-- Python substring test `pat in s` (used for `'django' in req_lower`
etc.). -/
def strContains (s pat : String) : Bool :=
  strContainsChars pat.data s.data

/-- One step of Python `str.split(sep)` for a non-empty separator; `fuel`
bounds the recursion by the input length (each step consumes at least one
character). -/
def splitOnCharsGo (sep : List Char) : Nat → List Char → List Char → List (List Char)
  | _, [], acc => [acc.reverse]
  | 0, c :: cs, acc => [acc.reverse ++ c :: cs]
  | fuel + 1, c :: cs, acc =>
    if leadsWith sep (c :: cs) then
      acc.reverse :: splitOnCharsGo sep fuel (List.drop sep.length (c :: cs)) []
    else
      splitOnCharsGo sep fuel cs (c :: acc)

/-- Python `s.split(sep)` for a non-empty separator string. -/
def pySplitOn (s sep : String) : List String :=
  (splitOnCharsGo sep.data (s.data.length + 1) s.data []).map String.mk

/-- Python `str.strip()`: drop whitespace from both ends. -/
def pyStrip (s : String) : String :=
  String.mk (((s.data.dropWhile Char.isWhitespace).reverse.dropWhile Char.isWhitespace).reverse)

/-- Python `str.lower()` for the ASCII framework names searched here. -/
def pyLower (s : String) : String :=
  String.mk (s.data.map Char.toLower)

/-- Python `str.split()` with no argument: split on whitespace runs,
discarding empty parts. -/
def splitWsGo : List Char → List Char → List (List Char)
  | [], acc => if acc.isEmpty then [] else [acc.reverse]
  | c :: cs, acc =>
    if c.isWhitespace then
      if acc.isEmpty then splitWsGo cs [] else acc.reverse :: splitWsGo cs []
    else splitWsGo cs (c :: acc)

/-- Python `cmd.split()`. -/
def pySplit (s : String) : List String :=
  (splitWsGo s.data []).map String.mk

/-! ## config.py: `Config.SUPPORTED_FRAMEWORKS`

Each entry of the Python dict keeps its `build_cmd` (possibly `None`) and
`output_dir`; the `dev_dependencies` / `package_managers` fields are never
read by the analyzer or the build service and are not modelled. -/

structure FrameworkConfig where
  build_cmd : Option String
  output_dir : String
  deriving Repr, DecidableEq

/-- The `Config.SUPPORTED_FRAMEWORKS` dict of config.py, as an association
list in the source's insertion order. -/
def SUPPORTED_FRAMEWORKS : List (String × FrameworkConfig) :=
  [ ("react",   { build_cmd := some "npm run build", output_dir := "build" }),
    ("vue",     { build_cmd := some "npm run build", output_dir := "dist" }),
    ("angular", { build_cmd := some "npm run build", output_dir := "dist" }),
    ("next",    { build_cmd := some "npm run build && npm run export", output_dir := "out" }),
    ("gatsby",  { build_cmd := some "npm run build", output_dir := "public" }),
    ("static",  { build_cmd := none, output_dir := "." }),
    ("vite",    { build_cmd := some "npm run build", output_dir := "dist" }) ]

/-- Python `framework in SUPPORTED_FRAMEWORKS` / `SUPPORTED_FRAMEWORKS[framework]`:
dict lookup by key. -/
def lookupFramework (fw : String) : Option FrameworkConfig :=
  (SUPPORTED_FRAMEWORKS.find? (fun p => p.1 == fw)).map Prod.snd

/-! ## The repository tree and the package manifest -/

/-- Parsed content of a `package.json` file (the fields the analyzer reads). -/
structure PackageJson where
  dependencies : List (String × String)
  devDependencies : List (String × String)
  scripts : List (String × String)
  deriving Repr, DecidableEq

/-- The facts about a checked-out repository tree that the analyzer and the
build service consult.  `packageJson = some none` models a `package.json`
that exists but fails to parse (the `json.load` error path);
`packageJson = some (some p)` a manifest parsing to `p`;
`requirementsTxt = some content` an existing `requirements.txt`. -/
structure RepoTree where
  packageJson : Option (Option PackageJson)
  requirementsTxt : Option String
  indexHtml : Bool
  yarnLock : Bool
  packageLockJson : Bool
  setupPy : Bool
  deriving Repr, DecidableEq

/-! ## code_analyzer.py -/

/-- The values the `dependencies` field of an analysis can hold: a dict of
package name to version (JavaScript path), a list of requirement lines
(Python path), or the initial empty dict. -/
inductive DepsVal where
  | map (entries : List (String × String))
  | lines (entries : List String)
  deriving Repr, DecidableEq

/-- The analysis dict built by `CodeAnalyzer.analyze_project`.  The
file-tree statistics (`files`) and the JS-only extras (`scripts`,
`node_version`, `has_css`, `has_js`, `has_requirements`, `has_setup_py`)
are carried where cheap and omitted where no claim reads them. -/
structure Analysis where
  language : Option String
  framework : Option String
  build_command : Option String
  output_directory : Option String
  package_manager : Option String
  is_static_site : Bool
  dependencies : DepsVal
  deriving Repr, DecidableEq

/-- The initial `analysis` dict literal at the top of `analyze_project`. -/
def baseAnalysis : Analysis :=
  { language := none
    framework := none
    build_command := none
    output_directory := none
    package_manager := none
    is_static_site := false
    dependencies := .map [] }

/-- Python `{**a, **b}`: keys of both dicts, values of `b` winning on
clashes (an entry of `a` survives only if its key is absent from `b`). -/
def mergeDicts (a b : List (String × String)) : List (String × String) :=
  a.filter (fun p => b.all (fun q => q.1 != p.1)) ++ b

/-- Python `name in dependencies`: key membership in the dict. -/
def hasDep (deps : List (String × String)) (name : String) : Bool :=
  deps.any (fun p => p.1 == name)

/-- Embeds `CodeAnalyzer._detect_js_framework`. -/
def detect_js_framework (dependencies : List (String × String)) : String :=
  if hasDep dependencies "next" then "next"
  else if hasDep dependencies "nuxt" then "nuxt"
  else if hasDep dependencies "gatsby" then "gatsby"
  else if hasDep dependencies "@angular/core" then "angular"
  else if hasDep dependencies "react" || hasDep dependencies "react-dom" then "react"
  else if hasDep dependencies "vue" || hasDep dependencies "@vue/cli" then "vue"
  else if hasDep dependencies "svelte" then "svelte"
  else "unknown"

/-- Embeds `CodeAnalyzer._analyze_javascript_project`, applied as a dict update to
the running analysis.  The `except` branch (manifest present but
unparseable) returns only language and framework, leaving the other base
fields in place, exactly as the partial dict `update` does. -/
def analyze_javascript_project (repo : RepoTree) (a : Analysis) : Analysis :=
  match repo.packageJson with
  | some (some pkg) =>
    let dependencies := mergeDicts pkg.dependencies pkg.devDependencies
    { a with
      language := some "javascript"
      framework := some (detect_js_framework dependencies)
      package_manager := some (if repo.yarnLock then "yarn" else "npm")
      dependencies := .map dependencies }
  | _ =>
    { a with language := some "javascript", framework := some "unknown" }

/-- Framework classification of `_analyze_python_project`: case-insensitive
substring search over the raw requirements content, in source order. -/
def detect_python_framework (requirements : String) : String :=
  if strContains (pyLower requirements) "django" then "django"
  else if strContains (pyLower requirements) "flask" then "flask"
  else if strContains (pyLower requirements) "fastapi" then "fastapi"
  else if strContains (pyLower requirements) "streamlit" then "streamlit"
  else "unknown"

/-- The dependency lines of `_analyze_python_project`: split on newlines,
strip, drop blanks. -/
def requirementLines (requirements : String) : List String :=
  ((pySplitOn requirements "\n").map pyStrip).filter (fun l => !l.data.isEmpty)

/-- Embeds `CodeAnalyzer._analyze_python_project` as a dict update.  The branch is
only entered when `requirements.txt` exists, so the inner existence check
is taken. -/
def analyze_python_project (repo : RepoTree) (a : Analysis) : Analysis :=
  match repo.requirementsTxt with
  | some requirements =>
    { a with
      language := some "python"
      framework := some (detect_python_framework requirements)
      dependencies := .lines (requirementLines requirements) }
  | none =>
    { a with language := some "python", framework := some "unknown" }

/-- Embeds `CodeAnalyzer._analyze_static_project` as a dict update. -/
def analyze_static_project (a : Analysis) : Analysis :=
  { a with
    language := some "html"
    framework := some "static"
    is_static_site := true }

/-- The detector-dispatch prefix of `analyze_project`: the `if/elif/elif`
chain on manifest existence, before the supported-framework step. -/
def analyze_detect (repo : RepoTree) : Analysis :=
  if repo.packageJson.isSome then analyze_javascript_project repo baseAnalysis
  else if repo.requirementsTxt.isSome then analyze_python_project repo baseAnalysis
  else if repo.indexHtml then analyze_static_project baseAnalysis
  else baseAnalysis

/-- The supported-framework step of `analyze_project`: if the detected
framework is a key of `SUPPORTED_FRAMEWORKS`, overwrite build command and
output directory from the table and set `is_static_site`. -/
def applyFrameworkConfig (a : Analysis) : Analysis :=
  match a.framework with
  | some fw =>
    match lookupFramework fw with
    | some cfg =>
      { a with
        build_command := cfg.build_cmd
        output_directory := some cfg.output_dir
        is_static_site := true }
    | none => a
  | none => a

/-- Embeds `CodeAnalyzer.analyze_project`.  In this pure embedding every modelled
operation is total, so the outer `except` branch (which would return an
`error` dict) is unreachable and the result is always a normal analysis. -/
def analyze_project (repo : RepoTree) : Analysis :=
  applyFrameworkConfig (analyze_detect repo)

/-! ## build_service.py -/

/-- Observed outcome of one `asyncio.create_subprocess_exec` +
`asyncio.wait_for(process.communicate(), timeout=...)` invocation:
a completed process with its return code and decoded stderr, or a
`TimeoutError`. -/
inductive ProcOutcome where
  | completed (returncode : Int) (stderrData : String)
  | timedOut
  deriving Repr, DecidableEq

/-- Environment for one build: the repository tree the build runs in and,
for every argv list the service may launch in the checkout directory, the
outcome of launching it.  A single build runs each subprocess at most
once, so a function from argv to outcome is a faithful trace. -/
structure BuildEnv where
  repo : RepoTree
  runProcess : List String → ProcOutcome
  pathExists : String → Bool
  dirNonempty : String → Bool

/-- Python `stderr.decode() if stderr else "Unknown error"` (empty bytes
are falsy). -/
def stderrMsg (stderrData : String) : String :=
  if stderrData.data.isEmpty then "Unknown error" else stderrData

/-- Value of `config.BUILD_TIMEOUT_SECONDS` at its default. -/
def BUILD_TIMEOUT_SECONDS : Nat := 600

/-- The install invocation chosen by `_install_js_dependencies`:
`none` when the `package.json` existence check makes it return without
installing, otherwise the argv list it launches. -/
def js_install_cmd (repo : RepoTree) (analysis : Analysis) : Option (List String) :=
  let package_manager := analysis.package_manager.getD "npm"
  if repo.packageJson.isNone then none
  else if package_manager == "yarn" then some ["yarn", "install", "--frozen-lockfile"]
  else if repo.packageLockJson then some ["npm", "ci"]
  else some ["npm", "install"]

/-- Embeds `BuildService._install_js_dependencies`: run the chosen invocation and
turn a non-zero exit or a timeout into the raised error message. -/
def install_js_dependencies (env : BuildEnv) (analysis : Analysis) : Except String Unit :=
  match js_install_cmd env.repo analysis with
  | none => .ok ()
  | some install_cmd =>
    match env.runProcess install_cmd with
    | .completed rc stderrData =>
      if rc != 0 then .error ("Dependency installation failed: " ++ stderrMsg stderrData)
      else .ok ()
    | .timedOut => .error "Dependency installation timed out"

/-- Embeds `BuildService._install_python_dependencies`. -/
def install_python_dependencies (env : BuildEnv) : Except String Unit :=
  if env.repo.requirementsTxt.isNone then .ok ()
  else
    match env.runProcess ["pip", "install", "-r", "requirements.txt"] with
    | .completed rc stderrData =>
      if rc != 0 then .error ("Python dependency installation failed: " ++ stderrMsg stderrData)
      else .ok ()
    | .timedOut => .error "Python dependency installation timed out"

/-- Embeds `BuildService._install_dependencies`: dispatch on `analysis.language`. -/
def install_dependencies (env : BuildEnv) (analysis : Analysis) : Except String Unit :=
  if analysis.language == some "javascript" then install_js_dependencies env analysis
  else if analysis.language == some "python" then install_python_dependencies env
  else .ok ()

/-- The command split of `_run_build_command`:
`[cmd.strip() for cmd in build_command.split("&&")]`. -/
def splitBuildCommand (build_command : String) : List String :=
  (pySplitOn build_command "&&").map pyStrip

/-- The sequential loop of `_run_build_command` over the already-split
sub-commands: each is launched as `create_subprocess_exec(*cmd.split())`;
the first non-zero exit raises an error naming that sub-command and the
loop stops. -/
def runCommandList (env : BuildEnv) : List String → Except String Unit
  | [] => .ok ()
  | cmd :: rest =>
    match env.runProcess (pySplit cmd) with
    | .completed rc stderrData =>
      if rc != 0 then
        .error ("Build command '" ++ cmd ++ "' failed: " ++ stderrMsg stderrData)
      else runCommandList env rest
    | .timedOut =>
      .error ("Build command '" ++ cmd ++ "' timed out after " ++
        toString BUILD_TIMEOUT_SECONDS ++ " seconds")

/-- Embeds `BuildService._run_build_command`. -/
def run_build_command (env : BuildEnv) (build_command : String) : Except String Unit :=
  runCommandList env (splitBuildCommand build_command)

/-- The sub-commands the loop of `_run_build_command` actually launches:
everything up to and including the first one that fails or times out. -/
def launchedCommands (env : BuildEnv) : List String → List String
  | [] => []
  | cmd :: rest =>
    match env.runProcess (pySplit cmd) with
    | .completed rc _ => if rc != 0 then [cmd] else cmd :: launchedCommands env rest
    | .timedOut => [cmd]

/-- Models `os.path.join(repo_path, output_directory)` for the relative output
directories this pipeline produces. -/
def joinPath (a b : String) : String := a ++ "/" ++ b

/-- Embeds `BuildService.build_project`.  The outer `try/except` re-raises every
failure as `Exception("Build failed: " + str(e))`; the embedding applies
the same prefix on each error path.  A `None` build command returns the
checkout path unchanged before any install or subprocess runs. -/
def build_project (env : BuildEnv) (repo_path : String) (analysis : Analysis) :
    Except String String :=
  match analysis.build_command with
  | none => .ok repo_path
  | some build_command =>
    match install_dependencies env analysis with
    | .error e => .error ("Build failed: " ++ e)
    | .ok _ =>
      match run_build_command env build_command with
      | .error e => .error ("Build failed: " ++ e)
      | .ok _ =>
        let build_output_path := joinPath repo_path (analysis.output_directory.getD "build")
        if !env.pathExists build_output_path then
          .error ("Build failed: Build output directory not found: " ++ build_output_path)
        else if !env.dirNonempty build_output_path then
          .error "Build failed: Build output directory is empty"
        else .ok build_output_path

/-! ## deployment_manager.py

The manager persists one JSON document per deployment.  For one pipeline
run over one deployment identifier the store is the single current
document plus the ordered trace of every `save_deployment` call; each
`datetime.now()` consumes one tick of an abstract monotone clock. -/

structure LogEntry where
  timestamp : Nat
  message : String
  deriving Repr, DecidableEq

/-- A deployment JSON document.  Every field is optional because
`get_deployment(...) or {}` may produce an empty dict; `deployment_details`
of the success payload is not modelled (no claim reads it). -/
structure DeploymentRecord where
  id : Option String
  project_id : Option String
  provider : Option String
  status : Option String
  error : Option String
  url : Option String
  created_at : Option Nat
  updated_at : Option Nat
  completed_at : Option Nat
  logs : List LogEntry
  deriving Repr, DecidableEq

/-- The empty dict `{}`. -/
def emptyRecord : DeploymentRecord :=
  { id := none, project_id := none, provider := none, status := none
    error := none, url := none, created_at := none, updated_at := none
    completed_at := none, logs := [] }

/-- The `data` dict passed to `update_deployment_status`: the failure call
site passes an error message, the success call site passes the result URL. -/
inductive UpdatePayload where
  | errorInfo (msg : String)
  | resultInfo (url : String)
  deriving Repr, DecidableEq

/-- Python `deployment_data.update(data)` for the two payload shapes. -/
def applyUpdate (d : DeploymentRecord) : UpdatePayload → DeploymentRecord
  | .errorInfo msg => { d with error := some msg }
  | .resultInfo url => { d with url := some url }

/-- Store state for one deployment identifier: current persisted document,
trace of saved snapshots, clock. -/
structure MgrState where
  record : Option DeploymentRecord
  trace : List DeploymentRecord
  clock : Nat
  deriving Repr, DecidableEq

/-- Models `datetime.now()`: read the clock, advance it. -/
def nowTake (s : MgrState) : Nat × MgrState :=
  (s.clock, { s with clock := s.clock + 1 })

/-- Embeds `DeploymentManager.save_deployment`: write the document, remember the
snapshot. -/
def save_deployment (s : MgrState) (d : DeploymentRecord) : MgrState :=
  { s with record := some d, trace := s.trace ++ [d] }

/-- Embeds `DeploymentManager.update_deployment_status`: load-or-empty, set
status and `updated_at`, merge the payload, stamp `completed_at` for the
terminal statuses, save. -/
def update_deployment_status (s : MgrState) (status : String) (data : UpdatePayload) :
    MgrState :=
  let d := s.record.getD emptyRecord
  let (t1, s) := nowTake s
  let d := applyUpdate { d with status := some status, updated_at := some t1 } data
  if status == "completed" || status == "failed" then
    let (t2, s) := nowTake s
    save_deployment s { d with completed_at := some t2 }
  else
    save_deployment s d

/-- Embeds `DeploymentManager.add_deployment_log`: load-or-empty, append one
timestamped entry, save. -/
def add_deployment_log (s : MgrState) (log_message : String) : MgrState :=
  let d := s.record.getD emptyRecord
  let (t, s) := nowTake s
  save_deployment s { d with logs := d.logs ++ [⟨t, log_message⟩] }

/-- Outcomes fed to one `deploy_project` pipeline run: what
`build_service.build_project` and (deployer lookup plus) `deployer.deploy`
return or raise.  A successful upload is summarised by its public URL. -/
structure PipelineEnv where
  provider : String
  project_id : String
  build_result : Except String String
  upload_result : Except String String

/-- Embeds `DeploymentManager.deploy_project`.  The body is the `try` block; the
two `.error` matches are the `except` handler, which updates the record to
`failed` and appends a log entry instead of re-raising — the function is
total, so no exception leaves the background pipeline runner. -/
def deploy_project (env : PipelineEnv) (deployment_id : String) (t0 : Nat) : MgrState :=
  let s : MgrState := { record := none, trace := [], clock := t0 }
  let (t, s) := nowTake s
  let d0 : DeploymentRecord :=
    { emptyRecord with
      id := some deployment_id
      project_id := some env.project_id
      provider := some env.provider
      status := some "in_progress"
      created_at := some t
      logs := [] }
  let s := save_deployment s d0
  let s := add_deployment_log s "Starting deployment process"
  let s := add_deployment_log s "Building project..."
  match env.build_result with
  | .error e =>
    let s := update_deployment_status s "failed" (.errorInfo e)
    add_deployment_log s ("Deployment failed: " ++ e)
  | .ok build_output_path =>
    let s := add_deployment_log s ("Build completed: " ++ build_output_path)
    let s := add_deployment_log s ("Deploying to " ++ env.provider ++ "...")
    match env.upload_result with
    | .error e =>
      let s := update_deployment_status s "failed" (.errorInfo e)
      add_deployment_log s ("Deployment failed: " ++ e)
    | .ok url =>
      let s := update_deployment_status s "completed" (.resultInfo url)
      add_deployment_log s ("Deployment completed successfully: " ++ url)

/-! ## aws_deployer.py / azure_deployer.py

Only the container-naming behaviour and the returned URL are modelled;
per-file uploads are abstracted (they target whatever container was
created or found).  `create_bucket` raises `BucketAlreadyExists` exactly
when the name is already taken. -/

/-- Builds the bucket name `deploy-` + deployment id + `-` + timestamp. -/
def awsBucketName (deployment_id : String) (timestamp : Nat) : String :=
  "deploy-" ++ deployment_id ++ "-" ++ toString timestamp

/-- The region-dependent website URL construction of `AWSDeployer.deploy`. -/
def awsWebsiteUrl (bucket_name region : String) : String :=
  if region == "us-east-1" then
    "https://" ++ bucket_name ++ ".s3-website-us-east-1.amazonaws.com"
  else
    "https://" ++ bucket_name ++ ".s3-website." ++ region ++ ".amazonaws.com"

/-- Cloud-side facts for one `AWSDeployer.deploy` call: the buckets that
already exist, the `uuid4()[:8]` deployment id, the two successive
`int(datetime.now().timestamp())` readings, and the region. -/
structure AwsEnv where
  existingBuckets : List String
  deployment_id : String
  t0 : Nat
  t1 : Nat
  region : String
  deriving Repr, DecidableEq

structure AwsResult where
  url : String
  bucket_name : String
  region : String
  deriving Repr, DecidableEq

/-- Embeds `AWSDeployer.deploy`: pick a time-stamped bucket name; on
`BucketAlreadyExists` re-stamp once and create again (a second collision
propagates and the outer handler re-raises); the returned URL is built
from the bucket name finally created. -/
def aws_deploy (env : AwsEnv) : Except String AwsResult :=
  let bucket0 := awsBucketName env.deployment_id env.t0
  if env.existingBuckets.contains bucket0 then
    let bucket1 := awsBucketName env.deployment_id env.t1
    if env.existingBuckets.contains bucket1 then
      .error "AWS deployment failed: BucketAlreadyExists"
    else
      .ok { url := awsWebsiteUrl bucket1 env.region
            bucket_name := bucket1, region := env.region }
  else
    .ok { url := awsWebsiteUrl bucket0 env.region
          bucket_name := bucket0, region := env.region }

/-- Cloud-side facts for one `AzureDeployer.deploy` call: the containers
that already exist in the storage account, the account name, the optional
custom domain. -/
structure AzureEnv where
  existingContainers : List String
  storage_account : String
  custom_domain : Option String
  deriving Repr, DecidableEq

structure AzureResult where
  url : String
  container_name : String
  storage_account : String
  deriving Repr, DecidableEq

/-- Embeds `AzureDeployer.deploy`: the container name is the constant `"$web"`;
if that container does not exist the deploy fails (static hosting not
enabled), otherwise every blob is uploaded into it with `overwrite=True`
— no fresh container name is ever generated. -/
def azure_deploy (env : AzureEnv) : Except String AzureResult :=
  let container_name := "$web"
  if !env.existingContainers.contains container_name then
    .error "Static website hosting not enabled on storage account"
  else
    let url :=
      match env.custom_domain with
      | some d => "https://" ++ d
      | none => "https://" ++ env.storage_account ++ ".z22.web.core.windows.net"
    .ok { url := url, container_name := container_name
          storage_account := env.storage_account }

/-! ## api/deploy.py -/

/-- The `supported` flag computed by `analyze_repository`:
`analysis.get("framework") in ["react", "vue", "angular", "next", "static", "gatsby"]`. -/
def analyze_supported (analysis : Analysis) : Bool :=
  match analysis.framework with
  | some fw => (["react", "vue", "angular", "next", "static", "gatsby"] : List String).contains fw
  | none => false

/-! ## Concrete fixtures used by witnesses and counterexamples -/

/-- A `package.json` declaring `react` and `react-dom` (Scenario A of the
spec). -/
def reactPackageJson : PackageJson :=
  { dependencies := [("react", "18.2.0"), ("react-dom", "18.2.0")]
    devDependencies := []
    scripts := [("build", "react-scripts build")] }

/-- A repository containing only that manifest: the JavaScript detector
path, no `index.html`, no lockfiles. -/
def reactRepo : RepoTree :=
  { packageJson := some (some reactPackageJson)
    requirementsTxt := none
    indexHtml := false
    yarnLock := false
    packageLockJson := false
    setupPy := false }

/-- A build environment over `reactRepo` in which every launched process
exits 0 but the declared output directory was never created. -/
def reactNoOutputEnv : BuildEnv :=
  { repo := reactRepo
    runProcess := fun _ => .completed 0 ""
    pathExists := fun _ => false
    dirNonempty := fun _ => false }

/-- A build environment whose `npm run build` exits 1 with a diagnostic. -/
def failingBuildEnv : BuildEnv :=
  { repo := reactRepo
    runProcess := fun argv =>
      if argv = ["npm", "run", "build"] then .completed 1 "missing script" else .completed 0 ""
    pathExists := fun _ => true
    dirNonempty := fun _ => true }

/-- A pipeline run whose build step raises. -/
def failingPipelineEnv : PipelineEnv :=
  { provider := "aws"
    project_id := "p1"
    build_result := .error "Build failed: Build output directory is empty"
    upload_result := .ok "https://example" }

/-- An AWS call whose first time-stamped bucket name is already taken. -/
def awsCollisionEnv : AwsEnv :=
  { existingBuckets := ["deploy-abc12345-100"]
    deployment_id := "abc12345"
    t0 := 100
    t1 := 101
    region := "us-east-1" }

/-- An Azure call against an account whose `$web` container (the only
container the deployer ever targets) already exists. -/
def azureCollisionEnv : AzureEnv :=
  { existingContainers := ["$web"]
    storage_account := "acct"
    custom_domain := none }

/-! # Theorems -/

theorem applyFrameworkConfig_framework (a : Analysis) :
    (applyFrameworkConfig a).framework = a.framework := by
  cases h : a.framework with
  | none => simp [applyFrameworkConfig, h]
  | some fw => cases h2 : lookupFramework fw <;> simp [applyFrameworkConfig, h, h2]

theorem applyFrameworkConfig_language (a : Analysis) :
    (applyFrameworkConfig a).language = a.language := by
  cases h : a.framework with
  | none => simp [applyFrameworkConfig, h]
  | some fw => cases h2 : lookupFramework fw <;> simp [applyFrameworkConfig, h, h2]

theorem applyFrameworkConfig_package_manager (a : Analysis) :
    (applyFrameworkConfig a).package_manager = a.package_manager := by
  cases h : a.framework with
  | none => simp [applyFrameworkConfig, h]
  | some fw => cases h2 : lookupFramework fw <;> simp [applyFrameworkConfig, h, h2]

theorem applyFrameworkConfig_dependencies (a : Analysis) :
    (applyFrameworkConfig a).dependencies = a.dependencies := by
  cases h : a.framework with
  | none => simp [applyFrameworkConfig, h]
  | some fw => cases h2 : lookupFramework fw <;> simp [applyFrameworkConfig, h, h2]

/-- C2: `analyze_project` applies exactly one detector, chosen by the fixed
priority package.json > requirements.txt > index.html; with no manifest at
all, language and framework remain unset and the result is the ordinary
base analysis (the pure embedding is total, so no error value is
produced). -/
theorem claim_detector_priority (repo : RepoTree) :
    (repo.packageJson.isSome = true →
      analyze_project repo = applyFrameworkConfig (analyze_javascript_project repo baseAnalysis)) ∧
    (repo.packageJson = none → repo.requirementsTxt.isSome = true →
      analyze_project repo = applyFrameworkConfig (analyze_python_project repo baseAnalysis)) ∧
    (repo.packageJson = none → repo.requirementsTxt = none → repo.indexHtml = true →
      analyze_project repo = applyFrameworkConfig (analyze_static_project baseAnalysis)) ∧
    (repo.packageJson = none → repo.requirementsTxt = none → repo.indexHtml = false →
      (analyze_project repo).language = none ∧ (analyze_project repo).framework = none) := by
  refine ⟨?_, ?_, ?_, ?_⟩
  · intro h1
    simp [analyze_project, analyze_detect, h1]
  · intro h1 h2
    simp [analyze_project, analyze_detect, h1, h2]
  · intro h1 h2 h3
    simp [analyze_project, analyze_detect, h1, h2, h3]
  · intro h1 h2 h3
    simp [analyze_project, analyze_detect, h1, h2, h3, applyFrameworkConfig, baseAnalysis]

/-- Witness for C2 at a concrete tree: `reactRepo` carries a package
manifest, so the analysis is exactly the JavaScript branch composed with
the supported-framework step. -/
theorem claim_detector_priority_witness :
    analyze_project reactRepo
      = applyFrameworkConfig (analyze_javascript_project reactRepo baseAnalysis) :=
  (claim_detector_priority reactRepo).1 (by decide)

/-- The framework values any detector can produce. -/
def detectorFrameworks : List String :=
  ["next", "nuxt", "gatsby", "angular", "react", "vue", "svelte", "unknown",
   "django", "flask", "fastapi", "streamlit", "static"]

theorem detect_js_framework_mem (deps : List (String × String)) :
    detect_js_framework deps ∈ detectorFrameworks := by
  unfold detect_js_framework
  repeat' split
  all_goals decide

theorem detect_python_framework_mem (req : String) :
    detect_python_framework req ∈ detectorFrameworks := by
  unfold detect_python_framework
  repeat' split
  all_goals decide

theorem analyze_detect_framework_mem (repo : RepoTree) :
    (analyze_detect repo).framework ∈ (none :: detectorFrameworks.map some) := by
  unfold analyze_detect
  split
  · unfold analyze_javascript_project
    cases hp : repo.packageJson with
    | none => exact List.mem_cons_of_mem _ (List.mem_map_of_mem some (by decide))
    | some op =>
      cases op with
      | none => exact List.mem_cons_of_mem _ (List.mem_map_of_mem some (by decide))
      | some pkg =>
        exact List.mem_cons_of_mem _
          (List.mem_map_of_mem some (detect_js_framework_mem _))
  · split
    · unfold analyze_python_project
      cases hr : repo.requirementsTxt with
      | none => exact List.mem_cons_of_mem _ (List.mem_map_of_mem some (by decide))
      | some req =>
        exact List.mem_cons_of_mem _
          (List.mem_map_of_mem some (detect_python_framework_mem _))
    · split
      · exact List.mem_cons_of_mem _ (List.mem_map_of_mem some (by decide))
      · exact List.mem_cons_self _ _

theorem analyze_detect_build_command (repo : RepoTree) :
    (analyze_detect repo).build_command = none := by
  unfold analyze_detect analyze_javascript_project analyze_python_project analyze_static_project
  repeat' split
  all_goals rfl

theorem lk_react : lookupFramework "react" = some ⟨some "npm run build", "build"⟩ := rfl

theorem lk_vue : lookupFramework "vue" = some ⟨some "npm run build", "dist"⟩ := rfl

theorem lk_angular : lookupFramework "angular" = some ⟨some "npm run build", "dist"⟩ := rfl

theorem lk_next : lookupFramework "next" = some ⟨some "npm run build && npm run export", "out"⟩ :=
  rfl

theorem lk_gatsby : lookupFramework "gatsby" = some ⟨some "npm run build", "public"⟩ := rfl

theorem lk_static : lookupFramework "static" = some ⟨none, "."⟩ := rfl

theorem lk_vite : lookupFramework "vite" = some ⟨some "npm run build", "dist"⟩ := rfl

theorem lk_nuxt : lookupFramework "nuxt" = none := rfl

theorem lk_svelte : lookupFramework "svelte" = none := rfl

theorem lk_unknown : lookupFramework "unknown" = none := rfl

theorem lk_django : lookupFramework "django" = none := rfl

theorem lk_flask : lookupFramework "flask" = none := rfl

theorem lk_fastapi : lookupFramework "fastapi" = none := rfl

theorem lk_streamlit : lookupFramework "streamlit" = none := rfl

/-- C3: in every analysis `analyze_project` produces, `build_command` is
non-null exactly when the detected framework is one of the recognized
non-static frameworks (the configuration-table keys whose build command is
set: react, vue, angular, next, gatsby, vite). -/
theorem claim_build_command_iff_nonstatic (repo : RepoTree) :
    (analyze_project repo).build_command ≠ none ↔
      (analyze_project repo).framework ∈
        ([some "react", some "vue", some "angular", some "next", some "gatsby", some "vite"] :
          List (Option String)) := by
  have hmem := analyze_detect_framework_mem repo
  have hbc := analyze_detect_build_command repo
  unfold analyze_project
  rw [applyFrameworkConfig_framework]
  simp only [detectorFrameworks, List.map_cons, List.map_nil, List.mem_cons,
    List.not_mem_nil, or_false] at hmem
  rcases hmem with h|h|h|h|h|h|h|h|h|h|h|h|h|h <;>
    simp [applyFrameworkConfig, h, hbc, lk_react, lk_vue, lk_angular, lk_next, lk_gatsby,
      lk_static, lk_vite, lk_nuxt, lk_svelte, lk_unknown, lk_django, lk_flask, lk_fastapi,
      lk_streamlit]

/-- C9: the analyze response's `supported` flag is true exactly when the
detected framework lies in the fixed set react, vue, angular, next,
static, gatsby. -/
theorem claim_supported_iff (repo : RepoTree) :
    analyze_supported (analyze_project repo) = true ↔
      (analyze_project repo).framework ∈
        ([some "react", some "vue", some "angular", some "next", some "static", some "gatsby"] :
          List (Option String)) := by
  cases h : (analyze_project repo).framework with
  | none => simp [analyze_supported, h]
  | some fw => simp [analyze_supported, h]

/-- C10: whenever the detected framework is any key of the
`SUPPORTED_FRAMEWORKS` table, `analyze_project` sets `is_static_site` —
regardless of which detector produced the framework, so the flag does not
mean the `index.html` path was taken. -/
theorem claim_table_key_is_static_site (repo : RepoTree) (fw : String)
    (hfw : (analyze_project repo).framework = some fw)
    (hkey : fw ∈ SUPPORTED_FRAMEWORKS.map Prod.fst) :
    (analyze_project repo).is_static_site = true := by
  have hl : ∃ cfg, lookupFramework fw = some cfg := by
    rw [lookupFramework]
    rcases List.mem_map.mp hkey with ⟨p, hp, hfst⟩
    have hs : (SUPPORTED_FRAMEWORKS.find? (fun q => q.1 == fw)).isSome := by
      rw [List.find?_isSome]
      exact ⟨p, hp, by simp [hfst]⟩
    rcases Option.isSome_iff_exists.mp hs with ⟨q, hq⟩
    exact ⟨q.2, by rw [hq]; rfl⟩
  rcases hl with ⟨cfg, hcfg⟩
  have hfw2 : (analyze_detect repo).framework = some fw := by
    rw [← applyFrameworkConfig_framework]; exact hfw
  unfold analyze_project
  simp [applyFrameworkConfig, hfw2, hcfg]

/-- Witness for C10: `reactRepo` has no `index.html`, its framework
`"react"` comes from the package-manifest detector, and `is_static_site`
is still set. -/
theorem claim_table_key_is_static_site_witness :
    (analyze_project reactRepo).is_static_site = true :=
  claim_table_key_is_static_site reactRepo "react" (by decide) (by decide)

theorem hasDep_mergeDicts (a b : List (String × String)) (k : String) :
    hasDep (mergeDicts a b) k = (hasDep a k || hasDep b k) := by
  simp only [hasDep, mergeDicts, List.any_append]
  cases hb : b.any (fun p => p.1 == k) with
  | true => simp
  | false =>
    simp only [Bool.or_false]
    rw [Bool.eq_iff_iff]
    simp only [List.any_eq_true, List.mem_filter]
    constructor
    · rintro ⟨x, ⟨hxa, _⟩, hxk⟩
      exact ⟨x, hxa, hxk⟩
    · rintro ⟨x, hxa, hxk⟩
      refine ⟨x, ⟨hxa, ?_⟩, hxk⟩
      rw [List.all_eq_true]
      intro y hy
      rw [List.any_eq_false] at hb
      have hyk := hb y hy
      simp only [bne_iff_ne, ne_eq]
      intro hcontra
      apply hyk
      rw [hcontra]
      exact hxk

/-- C6: with a parsed manifest, the analyzer merges runtime and
development dependencies into one mapping (a key is present iff it is
declared in either), classifies by the fixed precedence
next > nuxt > gatsby > angular > react > vue > svelte, else "unknown";
and a manifest declaring `react` + `react-dom` yields framework "react"
with build command "npm run build" and output directory "build". -/
theorem claim_js_merge_and_precedence (repo : RepoTree) (pkg : PackageJson)
    (hpkg : repo.packageJson = some (some pkg)) :
    (∀ k, hasDep (mergeDicts pkg.dependencies pkg.devDependencies) k
        = (hasDep pkg.dependencies k || hasDep pkg.devDependencies k)) ∧
    (analyze_project repo).dependencies
        = .map (mergeDicts pkg.dependencies pkg.devDependencies) ∧
    (analyze_project repo).framework
        = some (detect_js_framework (mergeDicts pkg.dependencies pkg.devDependencies)) ∧
    (∀ deps : List (String × String),
      (hasDep deps "next" = true → detect_js_framework deps = "next") ∧
      (hasDep deps "next" = false → hasDep deps "nuxt" = true →
        detect_js_framework deps = "nuxt") ∧
      (hasDep deps "next" = false → hasDep deps "nuxt" = false →
        hasDep deps "gatsby" = true → detect_js_framework deps = "gatsby") ∧
      (hasDep deps "next" = false → hasDep deps "nuxt" = false →
        hasDep deps "gatsby" = false → hasDep deps "@angular/core" = true →
        detect_js_framework deps = "angular") ∧
      (hasDep deps "next" = false → hasDep deps "nuxt" = false →
        hasDep deps "gatsby" = false → hasDep deps "@angular/core" = false →
        (hasDep deps "react" = true ∨ hasDep deps "react-dom" = true) →
        detect_js_framework deps = "react") ∧
      (hasDep deps "next" = false → hasDep deps "nuxt" = false →
        hasDep deps "gatsby" = false → hasDep deps "@angular/core" = false →
        hasDep deps "react" = false → hasDep deps "react-dom" = false →
        (hasDep deps "vue" = true ∨ hasDep deps "@vue/cli" = true) →
        detect_js_framework deps = "vue") ∧
      (hasDep deps "next" = false → hasDep deps "nuxt" = false →
        hasDep deps "gatsby" = false → hasDep deps "@angular/core" = false →
        hasDep deps "react" = false → hasDep deps "react-dom" = false →
        hasDep deps "vue" = false → hasDep deps "@vue/cli" = false →
        hasDep deps "svelte" = true → detect_js_framework deps = "svelte") ∧
      (hasDep deps "next" = false → hasDep deps "nuxt" = false →
        hasDep deps "gatsby" = false → hasDep deps "@angular/core" = false →
        hasDep deps "react" = false → hasDep deps "react-dom" = false →
        hasDep deps "vue" = false → hasDep deps "@vue/cli" = false →
        hasDep deps "svelte" = false → detect_js_framework deps = "unknown")) ∧
    (analyze_project reactRepo).framework = some "react" ∧
    (analyze_project reactRepo).build_command = some "npm run build" ∧
    (analyze_project reactRepo).output_directory = some "build" := by
  refine ⟨hasDep_mergeDicts _ _, ?_, ?_, ?_, by decide, by decide, by decide⟩
  · rw [show (analyze_project repo).dependencies = (analyze_detect repo).dependencies from
      applyFrameworkConfig_dependencies _]
    unfold analyze_detect
    simp [hpkg, analyze_javascript_project]
  · rw [show (analyze_project repo).framework = (analyze_detect repo).framework from
      applyFrameworkConfig_framework _]
    unfold analyze_detect
    simp [hpkg, analyze_javascript_project]
  · intro deps
    refine ⟨?_, ?_, ?_, ?_, ?_, ?_, ?_, ?_⟩ <;>
      intros <;>
      simp_all [detect_js_framework]

/-- Witness for C6 at the Scenario-A fixture. -/
theorem claim_js_merge_and_precedence_witness :
    (analyze_project reactRepo).framework = some "react" :=
  (claim_js_merge_and_precedence reactRepo reactPackageJson rfl).2.2.2.2.1

theorem analyze_detect_package_manager_cases (repo : RepoTree) :
    (analyze_detect repo).package_manager = none ∨
    (∃ pkg, repo.packageJson = some (some pkg) ∧
      (analyze_detect repo).package_manager
        = some (if repo.yarnLock then "yarn" else "npm")) := by
  unfold analyze_detect
  split
  · unfold analyze_javascript_project
    cases hp : repo.packageJson with
    | none => exact .inl rfl
    | some op =>
      cases op with
      | none => exact .inl rfl
      | some pkg => exact .inr ⟨pkg, rfl, rfl⟩
  · split
    · unfold analyze_python_project
      cases hr : repo.requirementsTxt with
      | none => exact .inl rfl
      | some req => exact .inl rfl
    · split
      · exact .inl rfl
      · exact .inl rfl

/-- C7: installation is skipped when no manifest exists; with the
analyzer's package manager "yarn" a yarn lockfile is present and the
frozen-lockfile install is chosen; with package manager npm the `npm ci`
invocation is chosen exactly when `package-lock.json` exists, else the
plain `npm install`. -/
theorem claim_install_invocation (repo : RepoTree) :
    (repo.packageJson = none → js_install_cmd repo (analyze_project repo) = none) ∧
    ((analyze_project repo).package_manager = some "yarn" →
      repo.yarnLock = true ∧
      js_install_cmd repo (analyze_project repo)
        = some ["yarn", "install", "--frozen-lockfile"]) ∧
    ((analyze_project repo).package_manager ≠ some "yarn" →
      repo.packageJson.isSome = true →
      js_install_cmd repo (analyze_project repo)
        = some (if repo.packageLockJson then ["npm", "ci"] else ["npm", "install"])) := by
  have hpm : (analyze_project repo).package_manager = (analyze_detect repo).package_manager :=
    applyFrameworkConfig_package_manager _
  refine ⟨?_, ?_, ?_⟩
  · intro h
    simp [js_install_cmd, h]
  · intro hy
    rw [hpm] at hy
    rcases analyze_detect_package_manager_cases repo with h | ⟨pkg, hpkg, h⟩
    · rw [h] at hy; exact absurd hy (by simp)
    · rw [h] at hy
      cases hyl : repo.yarnLock with
      | false => rw [hyl] at hy; simp at hy
      | true =>
        refine ⟨rfl, ?_⟩
        simp [js_install_cmd, hpkg, hpm, h, hyl]
  · intro hny hsome
    rcases analyze_detect_package_manager_cases repo with h | ⟨pkg, hpkg, h⟩
    · cases hp : repo.packageJson with
      | none => rw [hp] at hsome; simp at hsome
      | some op =>
        simp only [js_install_cmd, hp, hpm, h]
        cases hl : repo.packageLockJson <;> simp
    · rw [hpm, h] at hny
      cases hyl : repo.yarnLock with
      | true => rw [hyl] at hny; simp at hny
      | false =>
        rw [hyl] at hny
        simp only [js_install_cmd, hpkg, hpm, h, hyl]
        cases hl : repo.packageLockJson <;> simp

/-- Witness for C7: `reactRepo` has a manifest and no lockfile, so the
plain `npm install` is chosen. -/
theorem claim_install_invocation_witness :
    js_install_cmd reactRepo (analyze_project reactRepo) = some ["npm", "install"] :=
  (claim_install_invocation reactRepo).2.2 (by decide) (by decide)

theorem runCommandList_first_failure (env : BuildEnv) (cmd : String) (rc : Int)
    (stderrData : String) (post : List String)
    (hfail : env.runProcess (pySplit cmd) = .completed rc stderrData) (hrc : rc ≠ 0) :
    ∀ pre : List String, (∀ c ∈ pre, ∃ s, env.runProcess (pySplit c) = .completed 0 s) →
      runCommandList env (pre ++ cmd :: post)
        = .error ("Build command '" ++ cmd ++ "' failed: " ++ stderrMsg stderrData) ∧
      launchedCommands env (pre ++ cmd :: post) = pre ++ [cmd] := by
  intro pre
  induction pre with
  | nil =>
    intro _
    simp [runCommandList, launchedCommands, hfail, hrc]
  | cons c cs ih =>
    intro hpre
    obtain ⟨s, hs⟩ := hpre c (List.mem_cons_self c cs)
    have ih2 := ih (fun x hx => hpre x (List.mem_cons_of_mem c hx))
    simp [runCommandList, launchedCommands, hs, ih2.1, ih2.2]

/-- C5 -/
theorem claim_split_and_first_failure (env : BuildEnv) (build_command : String)
    (pre : List String) (cmd : String) (post : List String) (rc : Int) (stderrData : String)
    (hsplit : splitBuildCommand build_command = pre ++ cmd :: post)
    (hpre : ∀ c ∈ pre, ∃ s, env.runProcess (pySplit c) = .completed 0 s)
    (hfail : env.runProcess (pySplit cmd) = .completed rc stderrData)
    (hrc : rc ≠ 0) :
    run_build_command env build_command
      = .error ("Build command '" ++ cmd ++ "' failed: " ++ stderrMsg stderrData) ∧
    launchedCommands env (splitBuildCommand build_command) = pre ++ [cmd] := by
  rw [run_build_command, hsplit]
  exact runCommandList_first_failure env cmd rc stderrData post hfail hrc pre hpre

theorem claim_split_and_first_failure_witness :
    run_build_command failingBuildEnv "npm run build"
      = .error "Build command 'npm run build' failed: missing script" ∧
    launchedCommands failingBuildEnv (splitBuildCommand "npm run build")
      = ["npm run build"] :=
  claim_split_and_first_failure failingBuildEnv "npm run build" [] "npm run build"
    [] 1 "missing script" (by decide) (by simp) (by decide) (by decide)

/-- C4 -/
theorem claim_output_dir_verified (env : BuildEnv) (repo_path : String) (analysis : Analysis)
    (cmd : String) (hcmd : analysis.build_command = some cmd)
    (hrun : run_build_command env cmd = .ok ())
    (hout : env.pathExists (joinPath repo_path (analysis.output_directory.getD "build")) = false
      ∨ env.dirNonempty (joinPath repo_path (analysis.output_directory.getD "build")) = false) :
    ∃ msg, build_project env repo_path analysis = .error msg := by
  unfold build_project
  simp only [hcmd, hrun]
  cases hi : install_dependencies env analysis with
  | error e => exact ⟨"Build failed: " ++ e, rfl⟩
  | ok u =>
    cases u
    rcases hout with h | h
    · exact ⟨"Build failed: Build output directory not found: "
        ++ joinPath repo_path (analysis.output_directory.getD "build"), by simp [h]⟩
    · cases hp : env.pathExists (joinPath repo_path (analysis.output_directory.getD "build")) with
      | false => exact ⟨"Build failed: Build output directory not found: "
          ++ joinPath repo_path (analysis.output_directory.getD "build"), by simp [hp]⟩
      | true => exact ⟨"Build failed: Build output directory is empty", by simp [hp, h]⟩

theorem claim_output_dir_verified_witness :
    ∃ msg, build_project reactNoOutputEnv "/tmp/checkout" (analyze_project reactRepo)
      = .error msg :=
  claim_output_dir_verified reactNoOutputEnv "/tmp/checkout" (analyze_project reactRepo)
    "npm run build" (by decide) rfl (Or.inl (by decide))

/-- C1: when the build step or the upload step raises, `deploy_project`
starts the persisted record at `in_progress`, every saved snapshot is
`in_progress` or `failed`, and the final record is `failed` with the error
message attached and a completion timestamp stamped; the function is total
(the `except` handler absorbs the failure), so the exception never leaves
the background pipeline runner. -/
theorem claim_pipeline_failure_handling (env : PipelineEnv) (deployment_id : String)
    (t0 : Nat) (e : String)
    (hfail : env.build_result = .error e ∨
      (∃ p, env.build_result = .ok p ∧ env.upload_result = .error e)) :
    (∃ d0 rest, (deploy_project env deployment_id t0).trace = d0 :: rest ∧
      d0.status = some "in_progress") ∧
    (∃ final, (deploy_project env deployment_id t0).record = some final ∧
      final.status = some "failed" ∧ final.error = some e ∧
      final.completed_at.isSome = true) ∧
    (∀ d ∈ (deploy_project env deployment_id t0).trace,
      d.status = some "in_progress" ∨ d.status = some "failed") := by
  rcases hfail with h | ⟨p, hok, herr⟩
  · simp [deploy_project, h, save_deployment, add_deployment_log,
      update_deployment_status, nowTake, applyUpdate, emptyRecord]
  · simp [deploy_project, hok, herr, save_deployment, add_deployment_log,
      update_deployment_status, nowTake, applyUpdate, emptyRecord]

/-- Witness for C1: a concrete pipeline whose build step fails. -/
theorem claim_pipeline_failure_handling_witness :
    (∃ d0 rest, (deploy_project failingPipelineEnv "d1" 0).trace = d0 :: rest ∧
      d0.status = some "in_progress") ∧
    (∃ final, (deploy_project failingPipelineEnv "d1" 0).record = some final ∧
      final.status = some "failed" ∧
      final.error = some "Build failed: Build output directory is empty" ∧
      final.completed_at.isSome = true) ∧
    (∀ d ∈ (deploy_project failingPipelineEnv "d1" 0).trace,
      d.status = some "in_progress" ∨ d.status = some "failed") :=
  claim_pipeline_failure_handling failingPipelineEnv "d1" 0
    "Build failed: Build output directory is empty" (Or.inl rfl)
/-- Counterexample to C8: for the Azure variant the chosen container name
`"$web"` collides with an existing container, yet the deploy proceeds into
that very container (overwriting blobs) instead of retrying with a freshly
time-stamped name, and the returned URL references the storage account,
not any new container name. -/
theorem claim_collision_retry_counterexample :
    "$web" ∈ azureCollisionEnv.existingContainers ∧
    azure_deploy azureCollisionEnv
      = .ok { url := "https://acct.z22.web.core.windows.net"
              container_name := "$web", storage_account := "acct" } :=
  ⟨by decide, rfl⟩

/-- C8 amended: only the AWS variant retries a naming collision — once,
with a freshly time-stamped bucket name — and on success returns a URL
built from the new name; the Azure variant always targets the fixed
`"$web"` container and never generates a new container name. -/
theorem claim_aws_collision_retry (env : AwsEnv)
    (hc : awsBucketName env.deployment_id env.t0 ∈ env.existingBuckets)
    (hf : awsBucketName env.deployment_id env.t1 ∉ env.existingBuckets) :
    aws_deploy env
      = .ok { url := awsWebsiteUrl (awsBucketName env.deployment_id env.t1) env.region
              bucket_name := awsBucketName env.deployment_id env.t1
              region := env.region } ∧
    (∀ zenv : AzureEnv, ∀ r, azure_deploy zenv = .ok r → r.container_name = "$web") := by
  constructor
  · simp [aws_deploy, hc, hf]
  · intro zenv r hr
    unfold azure_deploy at hr
    by_cases hw : (!zenv.existingContainers.contains "$web") = true
    · rw [if_pos hw] at hr
      cases hr
    · rw [if_neg hw] at hr
      injection hr with h2
      rw [← h2]

/-- Witness for the amended C8 at a concrete collision. -/
theorem claim_aws_collision_retry_witness :
    aws_deploy awsCollisionEnv
      = .ok { url := "https://deploy-abc12345-101.s3-website-us-east-1.amazonaws.com"
              bucket_name := "deploy-abc12345-101", region := "us-east-1" } :=
  (claim_aws_collision_retry awsCollisionEnv (by decide) (by decide)).1
end Vishwakarma
